import Mathlib

/-!
Verification development for the Modal deployment script `modal_app.py` of
the realtime-video repository.  The script has two parts:

* `image` — a declarative build specification (a chain of image-construction
  steps), embedded here as the list `imageSteps` of `BuildStep`s;
* `web()` — the server-bootstrap routine (set four environment variables,
  `os.chdir("/root/app")`, create the `checkpoints` symlink when
  `os.path.exists` reports it absent, then `subprocess.Popen` the uvicorn
  command), embedded here as the pure function `web` over an explicit
  process state, returning an outcome together with the ordered trace of
  side-effecting operations the routine performs.

Filesystem model: a flat map from absolute path to entry.  `os.path.exists`
follows symbolic links (fuel-bounded resolution; all symlink targets in this
development are absolute paths, as in the script).  `os.symlink(src, dst)`
raises `FileExistsError` exactly when `dst` itself is an existing entry
(including a dangling symlink) and does not inspect `src`; `os.chdir(p)`
requires `p` to resolve to a directory.
-/

namespace RealtimeVideo

/-- A filesystem entry: regular file, directory, or symbolic link with an
absolute target path. -/
inductive Entry where
  | file : Entry
  | dir : Entry
  | symlink (target : String) : Entry
deriving DecidableEq, Repr

/-- A flat filesystem: absolute path to entry (none = no entry at that path). -/
def FS : Type := String → Option Entry

/-- Overwrite/insert the entry at a path. -/
def fsSet (fs : FS) (p : String) (e : Entry) : FS :=
  fun q => if q = p then some e else fs q

/-- Resolve a path to its final non-symlink entry, following symlink chains
with bounded fuel (targets are absolute). -/
def resolveEntry (fs : FS) : Nat → String → Option Entry
  | 0, _ => none
  | Nat.succ f, p =>
    match fs p with
    | some (Entry.symlink t) => resolveEntry fs f t
    | r => r

/-- Fuel bound for symlink resolution (far above any chain in this model). -/
def FUEL : Nat := 64

/-- Semantics of Python `os.path.exists`: true iff the path resolves, through
symlinks, to an existing entry; false on a dangling symlink. -/
def pathExists (fs : FS) (p : String) : Bool :=
  (resolveEntry fs FUEL p).isSome

/-- Resolve a possibly relative path against the working directory. -/
def absOf (cwd p : String) : String :=
  match p.data with
  | List.cons (Char.ofNat 47) _ => p
  | _ => cwd ++ "/" ++ p

/-- Process environment: variable name to value. -/
def Env : Type := String → Option String

/-- Semantics of an `os.environ[k] = v` assignment. -/
def envSet (env : Env) (k v : String) : Env :=
  fun q => if q = k then some v else env q

/-- Process state visible to the bootstrap routine: environment, working
directory and the filesystem. -/
structure PState where
  env : Env
  cwd : String
  fs : FS

/-- One side-effecting operation performed by the bootstrap routine, in
program order: an environment assignment, a working-directory change, a
symlink creation, or a child-process spawn.  The source performs no other
effectful call (in particular it never waits on the child or reads its exit
code, so no such operation exists in a trace). -/
inductive Event where
  | setEnvVar (name value : String) : Event
  | chdir (path : String) : Event
  | symlinkCreate (src dst : String) : Event
  | spawn (cmd : List String) : Event
deriving DecidableEq, Repr

/-- Outcome of the bootstrap routine: normal return with the final process
state, or an uncaught Python exception carrying the process state at the
point of the raise. -/
inductive BootOutcome where
  | ok (s : PState) : BootOutcome
  | err (msg : String) (s : PState) : BootOutcome

/-- The fixed uvicorn command list built at `modal_app.py` lines 99-108. -/
def serverCmd : List String :=
  ["uvicorn", "release_server:app", "--host", "0.0.0.0",
   "--port", "8000", "--log-level", "info"]

/-- The environment after the four fixed assignments of lines 85-88, in
source order. -/
def envAfter (env : Env) : Env :=
  envSet (envSet (envSet (envSet env
    "MODEL_FOLDER" "/root/wan_models")
    "CONFIG" "/root/app/configs/self_forcing_server_14b.yaml")
    "CUDA_VISIBLE_DEVICES" "0")
    "DO_COMPILE" "true"

/-- The trace of the four environment assignments, in source order. -/
def envEvents : List Event :=
  [Event.setEnvVar "MODEL_FOLDER" "/root/wan_models",
   Event.setEnvVar "CONFIG" "/root/app/configs/self_forcing_server_14b.yaml",
   Event.setEnvVar "CUDA_VISIBLE_DEVICES" "0",
   Event.setEnvVar "DO_COMPILE" "true"]

/-- The bootstrap routine `web()` of `modal_app.py` lines 75-110, as a pure
function from the initial process state to an outcome and the ordered trace
of its side-effecting operations:

1. four `os.environ` assignments (lines 85-88);
2. `os.chdir("/root/app")` (line 91) — fails unless the path resolves to a
   directory;
3. `if not os.path.exists("checkpoints"): os.symlink("/root/checkpoints",
   "checkpoints")` (lines 94-95) — the relative path is resolved against the
   new working directory; `os.symlink` raises `FileExistsError` when the
   link path is an existing entry (e.g. a dangling symlink) and does not
   check its target;
4. `subprocess.Popen(cmd)` (line 110) — spawn, return immediately. -/
def web (s : PState) : BootOutcome × List Event :=
  let s1 : PState := { s with env := envAfter s.env }
  match resolveEntry s1.fs FUEL "/root/app" with
  | some Entry.dir =>
    let s2 : PState := { s1 with cwd := "/root/app" }
    let aliasPath : String := absOf s2.cwd "checkpoints"
    if pathExists s2.fs aliasPath then
      (BootOutcome.ok s2,
       envEvents ++ [Event.chdir "/root/app", Event.spawn serverCmd])
    else
      match s2.fs aliasPath with
      | some _ =>
        (BootOutcome.err "FileExistsError" s2,
         envEvents ++ [Event.chdir "/root/app"])
      | none =>
        (BootOutcome.ok { s2 with
           fs := fsSet s2.fs aliasPath (Entry.symlink "/root/checkpoints") },
         envEvents ++ [Event.chdir "/root/app",
                       Event.symlinkCreate "/root/checkpoints" aliasPath,
                       Event.spawn serverCmd])
  | _ => (BootOutcome.err "chdir: no such file or directory" s1, envEvents)

/-- The relative link path `checkpoints`, resolved against the working
directory `/root/app` set by the preceding chdir. -/
theorem absOf_checkpoints : absOf "/root/app" "checkpoints" = "/root/app/checkpoints" := by
  decide

/-- Branch lemma: the expected path exists (resolving symlinks), so no
symlink is created and the routine chdirs and spawns. -/
theorem web_exists_branch (s : PState)
    (hdir : resolveEntry s.fs FUEL "/root/app" = some Entry.dir)
    (hex : pathExists s.fs "/root/app/checkpoints" = true) :
    web s = (BootOutcome.ok ⟨envAfter s.env, "/root/app", s.fs⟩,
             envEvents ++ [Event.chdir "/root/app", Event.spawn serverCmd]) := by
  simp only [web, absOf_checkpoints, hdir, hex, if_true]

/-- Branch lemma: the expected path has no entry at all, so the symlink is
created and the routine spawns. -/
theorem web_create_branch (s : PState)
    (hdir : resolveEntry s.fs FUEL "/root/app" = some Entry.dir)
    (hnex : pathExists s.fs "/root/app/checkpoints" = false)
    (hnone : s.fs "/root/app/checkpoints" = none) :
    web s = (BootOutcome.ok
               ⟨envAfter s.env, "/root/app",
                fsSet s.fs "/root/app/checkpoints" (Entry.symlink "/root/checkpoints")⟩,
             envEvents ++ [Event.chdir "/root/app",
               Event.symlinkCreate "/root/checkpoints" "/root/app/checkpoints",
               Event.spawn serverCmd]) := by
  simp only [web, absOf_checkpoints, hdir, hnex, hnone, Bool.false_eq_true, if_false]

/-- Branch lemma: the expected path does not resolve (dangling symlink) but
an entry is present, so `os.symlink` raises `FileExistsError` and the
routine terminates before the spawn. -/
theorem web_dangling_branch (s : PState)
    (hdir : resolveEntry s.fs FUEL "/root/app" = some Entry.dir)
    (hnex : pathExists s.fs "/root/app/checkpoints" = false)
    (e : Entry) (hsome : s.fs "/root/app/checkpoints" = some e) :
    web s = (BootOutcome.err "FileExistsError" ⟨envAfter s.env, "/root/app", s.fs⟩,
             envEvents ++ [Event.chdir "/root/app"]) := by
  simp only [web, absOf_checkpoints, hdir, hnex, hsome, Bool.false_eq_true, if_false]

/-- Branch lemma: `/root/app` does not resolve to a directory, so the chdir
raises and only the environment assignments happen. -/
theorem web_nodir_branch (s : PState)
    (hdir : resolveEntry s.fs FUEL "/root/app" ≠ some Entry.dir) :
    web s = (BootOutcome.err "chdir: no such file or directory"
               ⟨envAfter s.env, s.cwd, s.fs⟩, envEvents) := by
  cases hres : resolveEntry s.fs FUEL "/root/app" with
  | none => simp only [web, hres]
  | some e =>
    cases e with
    | dir => exact absurd hres hdir
    | file => simp only [web, hres]
    | symlink t => simp only [web, hres]

/-- Every run of the bootstrap routine takes one of exactly four shapes:
chdir failure, spawn with the alias already resolvable, `FileExistsError`
on a dangling alias entry, or symlink creation followed by the spawn. -/
theorem web_cases (s : PState) :
    web s = (BootOutcome.err "chdir: no such file or directory"
               ⟨envAfter s.env, s.cwd, s.fs⟩, envEvents) ∨
    web s = (BootOutcome.ok ⟨envAfter s.env, "/root/app", s.fs⟩,
             envEvents ++ [Event.chdir "/root/app", Event.spawn serverCmd]) ∨
    web s = (BootOutcome.err "FileExistsError" ⟨envAfter s.env, "/root/app", s.fs⟩,
             envEvents ++ [Event.chdir "/root/app"]) ∨
    web s = (BootOutcome.ok
               ⟨envAfter s.env, "/root/app",
                fsSet s.fs "/root/app/checkpoints" (Entry.symlink "/root/checkpoints")⟩,
             envEvents ++ [Event.chdir "/root/app",
               Event.symlinkCreate "/root/checkpoints" "/root/app/checkpoints",
               Event.spawn serverCmd]) := by
  by_cases hdir : resolveEntry s.fs FUEL "/root/app" = some Entry.dir
  · by_cases hex : pathExists s.fs "/root/app/checkpoints" = true
    · exact Or.inr (Or.inl (web_exists_branch s hdir hex))
    · have hnex : pathExists s.fs "/root/app/checkpoints" = false := by
        simpa using hex
      cases hfs : s.fs "/root/app/checkpoints" with
      | none => exact Or.inr (Or.inr (Or.inr (web_create_branch s hdir hnex hfs)))
      | some e => exact Or.inr (Or.inr (Or.inl (web_dangling_branch s hdir hnex e hfs)))
  · exact Or.inl (web_nodir_branch s hdir)

/-- Whether an outcome is a normal return. -/
def isOk : BootOutcome → Bool
  | BootOutcome.ok _ => true
  | BootOutcome.err _ _ => false

/-- The process state an outcome carries (final state on return, state at the
raise point on an exception). -/
def stateOf : BootOutcome → PState
  | BootOutcome.ok s2 => s2
  | BootOutcome.err _ s2 => s2

/-- Whether an event is a child-process spawn. -/
def isSpawnEv : Event → Bool
  | Event.spawn _ => true
  | _ => false

/-- Whether an event is a symlink creation (the only filesystem write the
routine can perform). -/
def isSymlinkEv : Event → Bool
  | Event.symlinkCreate _ _ => true
  | _ => false

/-- Build a filesystem from a finite list of (path, entry) pairs. -/
def mkFS (l : List (String × Entry)) : FS :=
  fun p => (l.find? (fun pr => pr.1 == p)).map Prod.snd

/-- The empty process environment. -/
def baseEnv : Env := fun _ => none

/-- A fresh instance as produced by the image build: the application root,
the downloaded checkpoint directory and the weight directories exist, and
`/root/app/checkpoints` is absent. -/
def sFresh : PState :=
  ⟨baseEnv, "/",
   mkFS [("/root", Entry.dir), ("/root/app", Entry.dir),
         ("/root/checkpoints", Entry.dir), ("/root/wan_models", Entry.dir)]⟩

/-- An instance on which the bootstrap already ran: the alias symlink is in
place and its target exists. -/
def sLinked : PState :=
  ⟨baseEnv, "/",
   mkFS [("/root", Entry.dir), ("/root/app", Entry.dir),
         ("/root/checkpoints", Entry.dir), ("/root/wan_models", Entry.dir),
         ("/root/app/checkpoints", Entry.symlink "/root/checkpoints")]⟩

/-- A fresh instance with the same filesystem as `sFresh` but a different
inherited environment and working directory (for the determinism claim). -/
def sAlt : PState :=
  ⟨envSet baseEnv "HOME" "/root", "/root", sFresh.fs⟩

/-- An instance missing the checkpoint source path `/root/checkpoints`. -/
def sNoCkpt : PState :=
  ⟨baseEnv, "/", mkFS [("/root", Entry.dir), ("/root/app", Entry.dir)]⟩

/-- An instance where the alias exists but its target was removed: a
dangling symlink at `/root/app/checkpoints`. -/
def sDangling : PState :=
  ⟨baseEnv, "/",
   mkFS [("/root", Entry.dir), ("/root/app", Entry.dir),
         ("/root/app/checkpoints", Entry.symlink "/root/checkpoints")]⟩

/-- Unfolding the resolution fuel once. -/
theorem FUEL_succ : FUEL = 63 + 1 := rfl

/-- One resolution step. -/
theorem resolveEntry_succ (fs : FS) (f : Nat) (p : String) :
    resolveEntry fs (f + 1) p =
      match fs p with
      | some (Entry.symlink t) => resolveEntry fs f t
      | r => r := rfl

/-- A path with no entry does not exist. -/
theorem pathExists_none (fs : FS) (p : String) (h : fs p = none) :
    pathExists fs p = false := by
  unfold pathExists
  rw [FUEL_succ, resolveEntry_succ, h]
  rfl

/-- A symlink whose target path has no entry is dangling: `os.path.exists`
reports it absent. -/
theorem pathExists_dangling (fs : FS) (p t : String)
    (h1 : fs p = some (Entry.symlink t)) (h2 : fs t = none) :
    pathExists fs p = false := by
  unfold pathExists
  rw [FUEL_succ, resolveEntry_succ, h1]
  show (resolveEntry fs 63 t).isSome = false
  rw [show (63 : Nat) = 62 + 1 from rfl, resolveEntry_succ, h2]
  rfl

/-- A symlink to an existing directory exists. -/
theorem pathExists_link_dir (fs : FS) (p t : String)
    (h1 : fs p = some (Entry.symlink t)) (h2 : fs t = some Entry.dir) :
    pathExists fs p = true := by
  unfold pathExists
  rw [FUEL_succ, resolveEntry_succ, h1]
  show (resolveEntry fs 63 t).isSome = true
  rw [show (63 : Nat) = 62 + 1 from rfl, resolveEntry_succ, h2]
  rfl

/-- A path holding a directory entry resolves to it. -/
theorem resolveEntry_dir (fs : FS) (p : String) (h : fs p = some Entry.dir) :
    resolveEntry fs FUEL p = some Entry.dir := by
  rw [FUEL_succ, resolveEntry_succ, h]


/-- Reading back the path just written. -/
theorem fsSet_same (fs : FS) (p : String) (e : Entry) : fsSet fs p e p = some e := by
  simp [fsSet]

/-- Writing one path leaves every other path unchanged. -/
theorem fsSet_other (fs : FS) (p : String) (e : Entry) (q : String) (h : q ≠ p) :
    fsSet fs p e q = fs q := by
  simp [fsSet, h]

/-- The four fixed assignments leave every other variable unchanged. -/
theorem envAfter_frame (env : Env) (k : String)
    (h1 : k ≠ "MODEL_FOLDER") (h2 : k ≠ "CONFIG")
    (h3 : k ≠ "CUDA_VISIBLE_DEVICES") (h4 : k ≠ "DO_COMPILE") :
    envAfter env k = env k := by
  simp [envAfter, envSet, h1, h2, h3, h4]

/-- Value of `MODEL_FOLDER` after the assignments. -/
theorem envAfter_model_folder (env : Env) :
    envAfter env "MODEL_FOLDER" = some "/root/wan_models" := rfl

/-- Value of `CONFIG` after the assignments. -/
theorem envAfter_config (env : Env) :
    envAfter env "CONFIG" = some "/root/app/configs/self_forcing_server_14b.yaml" := rfl

/-- Value of `CUDA_VISIBLE_DEVICES` after the assignments. -/
theorem envAfter_cuda (env : Env) :
    envAfter env "CUDA_VISIBLE_DEVICES" = some "0" := rfl

/-- Value of `DO_COMPILE` after the assignments. -/
theorem envAfter_do_compile (env : Env) :
    envAfter env "DO_COMPILE" = some "true" := rfl

/-- C1: every invocation of the bootstrap routine that reaches the spawn
step spawns exactly the command list `uvicorn release_server:app --host
0.0.0.0 --port 8000 --log-level info`. -/
theorem spawn_cmd_exact (s : PState) (c : List String)
    (h : Event.spawn c ∈ (web s).2) :
    c = ["uvicorn", "release_server:app", "--host", "0.0.0.0",
         "--port", "8000", "--log-level", "info"] := by
  rcases web_cases s with hw | hw | hw | hw <;> rw [hw] at h
  · simp [envEvents] at h
  · simp [envEvents, serverCmd] at h
    exact h
  · simp [envEvents] at h
  · simp [envEvents, serverCmd] at h
    exact h

/-- Witness for C1 at a fresh instance. -/
theorem spawn_cmd_exact_witness :
    Event.spawn serverCmd ∈ (web sFresh).2 ∧
    serverCmd = ["uvicorn", "release_server:app", "--host", "0.0.0.0",
                 "--port", "8000", "--log-level", "info"] :=
  ⟨by decide, spawn_cmd_exact sFresh serverCmd (by decide)⟩

/-- C2: in every execution the four environment variables are assigned
their fixed values, in source order, strictly before any spawn event, and
any run that spawns ends with the Runtime Environment Record fully
populated. -/
theorem env_populated_before_spawn (s : PState) (r : BootOutcome)
    (tr : List Event) (h : web s = (r, tr)) :
    tr.take 4 = envEvents ∧
    (∀ c, Event.spawn c ∉ envEvents) ∧
    (∀ c, Event.spawn c ∈ tr → isOk r = true ∧
      (stateOf r).env "MODEL_FOLDER" = some "/root/wan_models" ∧
      (stateOf r).env "CONFIG" = some "/root/app/configs/self_forcing_server_14b.yaml" ∧
      (stateOf r).env "CUDA_VISIBLE_DEVICES" = some "0" ∧
      (stateOf r).env "DO_COMPILE" = some "true") := by
  have hnotin : ∀ c, Event.spawn c ∉ envEvents := by
    intro c hc
    simp [envEvents] at hc
  rcases web_cases s with hw | hw | hw | hw <;> rw [hw] at h <;>
    injection h with h1 h2 <;> subst h1 <;> subst h2
  · exact ⟨by decide, hnotin, fun c hc => absurd hc (hnotin c)⟩
  · refine ⟨by decide, hnotin, fun c _ => ⟨rfl, rfl, rfl, rfl, rfl⟩⟩
  · refine ⟨by decide, hnotin, fun c hc => ?_⟩
    simp [envEvents] at hc
  · refine ⟨by decide, hnotin, fun c _ => ⟨rfl, rfl, rfl, rfl, rfl⟩⟩

/-- Witness for C2 at a fresh instance. -/
theorem env_populated_before_spawn_witness :
    (envEvents ++ [Event.chdir "/root/app",
       Event.symlinkCreate "/root/checkpoints" "/root/app/checkpoints",
       Event.spawn serverCmd]).take 4 = envEvents ∧
    (∀ c, Event.spawn c ∉ envEvents) ∧
    (∀ c, Event.spawn c ∈
        envEvents ++ [Event.chdir "/root/app",
          Event.symlinkCreate "/root/checkpoints" "/root/app/checkpoints",
          Event.spawn serverCmd] →
      isOk (BootOutcome.ok ⟨envAfter sFresh.env, "/root/app",
        fsSet sFresh.fs "/root/app/checkpoints" (Entry.symlink "/root/checkpoints")⟩) = true ∧
      (stateOf (BootOutcome.ok ⟨envAfter sFresh.env, "/root/app",
        fsSet sFresh.fs "/root/app/checkpoints" (Entry.symlink "/root/checkpoints")⟩)).env
          "MODEL_FOLDER" = some "/root/wan_models" ∧
      (stateOf (BootOutcome.ok ⟨envAfter sFresh.env, "/root/app",
        fsSet sFresh.fs "/root/app/checkpoints" (Entry.symlink "/root/checkpoints")⟩)).env
          "CONFIG" = some "/root/app/configs/self_forcing_server_14b.yaml" ∧
      (stateOf (BootOutcome.ok ⟨envAfter sFresh.env, "/root/app",
        fsSet sFresh.fs "/root/app/checkpoints" (Entry.symlink "/root/checkpoints")⟩)).env
          "CUDA_VISIBLE_DEVICES" = some "0" ∧
      (stateOf (BootOutcome.ok ⟨envAfter sFresh.env, "/root/app",
        fsSet sFresh.fs "/root/app/checkpoints" (Entry.symlink "/root/checkpoints")⟩)).env
          "DO_COMPILE" = some "true") :=
  env_populated_before_spawn sFresh _ _
    (web_create_branch sFresh (by decide) (by decide) (by decide))

/-- C3: when the expected path `checkpoints` (relative to `/root/app`)
already exists in the `os.path.exists` sense, the bootstrap does not fail,
creates no symlink, and leaves the filesystem unchanged at every path. -/
theorem symlink_idempotent (s : PState)
    (hdir : resolveEntry s.fs FUEL "/root/app" = some Entry.dir)
    (hex : pathExists s.fs "/root/app/checkpoints" = true) :
    web s = (BootOutcome.ok ⟨envAfter s.env, "/root/app", s.fs⟩,
             envEvents ++ [Event.chdir "/root/app", Event.spawn serverCmd]) ∧
    (∀ src dst, Event.symlinkCreate src dst ∉ (web s).2) ∧
    (∀ p, (stateOf (web s).1).fs p = s.fs p) := by
  have hw := web_exists_branch s hdir hex
  refine ⟨hw, fun src dst hc => ?_, fun p => ?_⟩
  · rw [hw] at hc
    simp [envEvents] at hc
  · rw [hw]
    rfl

/-- Witness for C3 at an instance where the alias is already in place. -/
theorem symlink_idempotent_witness :
    web sLinked = (BootOutcome.ok ⟨envAfter sLinked.env, "/root/app", sLinked.fs⟩,
             envEvents ++ [Event.chdir "/root/app", Event.spawn serverCmd]) ∧
    (∀ src dst, Event.symlinkCreate src dst ∉ (web sLinked).2) ∧
    (∀ p, (stateOf (web sLinked).1).fs p = sLinked.fs p) :=
  symlink_idempotent sLinked (by decide) (by decide)

/-- C4 counterexample: on an instance whose checkpoint source path
`/root/checkpoints` is missing, the bootstrap does not fail at the
alias-creation step — it returns normally and the spawn is reached. -/
theorem missing_source_still_spawns :
    sNoCkpt.fs "/root/checkpoints" = none ∧
    isOk (web sNoCkpt).1 = true ∧
    Event.spawn serverCmd ∈ (web sNoCkpt).2 :=
  ⟨by decide, by decide, by decide⟩

/-- C4 amended: when `/root/checkpoints` is missing (and the alias path has
no entry), the bootstrap does not fail: `os.symlink` succeeds, creating a
dangling alias at `/root/app/checkpoints`, and the server is spawned. -/
theorem missing_source_creates_dangling (s : PState)
    (hdir : resolveEntry s.fs FUEL "/root/app" = some Entry.dir)
    (halias : s.fs "/root/app/checkpoints" = none)
    (hsrc : s.fs "/root/checkpoints" = none) :
    web s = (BootOutcome.ok
               ⟨envAfter s.env, "/root/app",
                fsSet s.fs "/root/app/checkpoints" (Entry.symlink "/root/checkpoints")⟩,
             envEvents ++ [Event.chdir "/root/app",
               Event.symlinkCreate "/root/checkpoints" "/root/app/checkpoints",
               Event.spawn serverCmd]) ∧
    pathExists (fsSet s.fs "/root/app/checkpoints" (Entry.symlink "/root/checkpoints"))
      "/root/app/checkpoints" = false := by
  have hnex := pathExists_none s.fs _ halias
  refine ⟨web_create_branch s hdir hnex halias, ?_⟩
  refine pathExists_dangling _ _ "/root/checkpoints" (fsSet_same _ _ _) ?_
  rw [fsSet_other _ _ _ _ (by decide)]
  exact hsrc

/-- Witness for the amended C4 at the concrete instance missing
`/root/checkpoints`. -/
theorem missing_source_creates_dangling_witness :
    web sNoCkpt = (BootOutcome.ok
               ⟨envAfter sNoCkpt.env, "/root/app",
                fsSet sNoCkpt.fs "/root/app/checkpoints" (Entry.symlink "/root/checkpoints")⟩,
             envEvents ++ [Event.chdir "/root/app",
               Event.symlinkCreate "/root/checkpoints" "/root/app/checkpoints",
               Event.spawn serverCmd]) ∧
    pathExists (fsSet sNoCkpt.fs "/root/app/checkpoints" (Entry.symlink "/root/checkpoints"))
      "/root/app/checkpoints" = false :=
  missing_source_creates_dangling sNoCkpt (by decide) (by decide) (by decide)

/-- C5: the spawn is non-blocking — in every successful run the spawn is the
last operation the routine performs (nothing follows it before the return),
and there is exactly one spawn and no wait or exit-code inspection in the
trace. -/
theorem spawn_nonblocking (s s2 : PState) (tr : List Event)
    (h : web s = (BootOutcome.ok s2, tr)) :
    tr.getLast? = some (Event.spawn serverCmd) ∧
    tr.filter isSpawnEv = [Event.spawn serverCmd] := by
  rcases web_cases s with hw | hw | hw | hw <;> rw [hw] at h <;>
    injection h with h1 h2
  · exact BootOutcome.noConfusion h1
  · subst h2
    exact ⟨by decide, by decide⟩
  · exact BootOutcome.noConfusion h1
  · subst h2
    exact ⟨by decide, by decide⟩

/-- Witness for C5 at a fresh instance. -/
theorem spawn_nonblocking_witness :
    (envEvents ++ [Event.chdir "/root/app",
       Event.symlinkCreate "/root/checkpoints" "/root/app/checkpoints",
       Event.spawn serverCmd]).getLast? = some (Event.spawn serverCmd) ∧
    (envEvents ++ [Event.chdir "/root/app",
       Event.symlinkCreate "/root/checkpoints" "/root/app/checkpoints",
       Event.spawn serverCmd]).filter isSpawnEv = [Event.spawn serverCmd] :=
  spawn_nonblocking sFresh
    ⟨envAfter sFresh.env, "/root/app",
     fsSet sFresh.fs "/root/app/checkpoints" (Entry.symlink "/root/checkpoints")⟩
    _ (web_create_branch sFresh (by decide) (by decide) (by decide))

/-- C7: the bootstrap routine takes no caller input and is deterministic —
two runs from the same filesystem state produce the identical trace (same
environment assignments, chdir, alias decision and spawned command), agree
on success, and produce pointwise-identical filesystems. -/
theorem bootstrap_deterministic (s t : PState) (hfs : ∀ p, s.fs p = t.fs p) :
    (web s).2 = (web t).2 ∧
    isOk (web s).1 = isOk (web t).1 ∧
    (∀ p, (stateOf (web s).1).fs p = (stateOf (web t).1).fs p) := by
  have hf : s.fs = t.fs := funext hfs
  by_cases hdir : resolveEntry s.fs FUEL "/root/app" = some Entry.dir
  · by_cases hex : pathExists s.fs "/root/app/checkpoints" = true
    · rw [web_exists_branch s hdir hex, web_exists_branch t (hf ▸ hdir) (hf ▸ hex)]
      exact ⟨rfl, rfl, fun p => hfs p⟩
    · have hnex : pathExists s.fs "/root/app/checkpoints" = false := by
        simpa using hex
      cases hca : s.fs "/root/app/checkpoints" with
      | none =>
        rw [web_create_branch s hdir hnex hca,
            web_create_branch t (hf ▸ hdir) (hf ▸ hnex) (hf ▸ hca)]
        refine ⟨rfl, rfl, fun p => ?_⟩
        simp [stateOf, fsSet, hfs p]
      | some e =>
        rw [web_dangling_branch s hdir hnex e hca,
            web_dangling_branch t (hf ▸ hdir) (hf ▸ hnex) e (hf ▸ hca)]
        exact ⟨rfl, rfl, fun p => hfs p⟩
  · rw [web_nodir_branch s hdir, web_nodir_branch t (hf ▸ hdir)]
    exact ⟨rfl, rfl, fun p => hfs p⟩

/-- Witness for C7: two instances sharing the filesystem but with different
inherited environment and working directory. -/
theorem bootstrap_deterministic_witness :
    (web sFresh).2 = (web sAlt).2 ∧
    isOk (web sFresh).1 = isOk (web sAlt).1 ∧
    (∀ p, (stateOf (web sFresh).1).fs p = (stateOf (web sAlt).1).fs p) :=
  bootstrap_deterministic sFresh sAlt (fun _ => rfl)

/-- C8: the side effects are bounded — only the four named environment
variables can change, the filesystem can change at most at the alias path
`/root/app/checkpoints` (the single symlink write), the trace holds at most
one symlink creation and at most one spawn, and a successful run spawns
exactly one child. -/
theorem side_effects_bounded (s : PState) (r : BootOutcome) (tr : List Event)
    (h : web s = (r, tr)) :
    (∀ k, k ≠ "MODEL_FOLDER" → k ≠ "CONFIG" → k ≠ "CUDA_VISIBLE_DEVICES" →
       k ≠ "DO_COMPILE" → (stateOf r).env k = s.env k) ∧
    (∀ p, p ≠ "/root/app/checkpoints" → (stateOf r).fs p = s.fs p) ∧
    (tr.filter isSymlinkEv).length ≤ 1 ∧
    (tr.filter isSpawnEv).length ≤ 1 ∧
    (isOk r = true → tr.filter isSpawnEv = [Event.spawn serverCmd]) := by
  rcases web_cases s with hw | hw | hw | hw <;> rw [hw] at h <;>
    injection h with h1 h2 <;> subst h1 <;> subst h2
  · exact ⟨fun k h1 h2 h3 h4 => envAfter_frame s.env k h1 h2 h3 h4,
      fun p _ => rfl, by decide, by decide,
      fun hh => absurd hh Bool.false_ne_true⟩
  · exact ⟨fun k h1 h2 h3 h4 => envAfter_frame s.env k h1 h2 h3 h4,
      fun p _ => rfl, by decide, by decide, fun _ => by decide⟩
  · exact ⟨fun k h1 h2 h3 h4 => envAfter_frame s.env k h1 h2 h3 h4,
      fun p _ => rfl, by decide, by decide,
      fun hh => absurd hh Bool.false_ne_true⟩
  · exact ⟨fun k h1 h2 h3 h4 => envAfter_frame s.env k h1 h2 h3 h4,
      fun p hp => fsSet_other s.fs _ _ p hp, by decide, by decide,
      fun _ => by decide⟩

/-- Witness for C8 at a fresh instance. -/
theorem side_effects_bounded_witness :
    (∀ k, k ≠ "MODEL_FOLDER" → k ≠ "CONFIG" → k ≠ "CUDA_VISIBLE_DEVICES" →
       k ≠ "DO_COMPILE" →
       (stateOf (BootOutcome.ok ⟨envAfter sFresh.env, "/root/app",
          fsSet sFresh.fs "/root/app/checkpoints" (Entry.symlink "/root/checkpoints")⟩)).env k
         = sFresh.env k) ∧
    (∀ p, p ≠ "/root/app/checkpoints" →
       (stateOf (BootOutcome.ok ⟨envAfter sFresh.env, "/root/app",
          fsSet sFresh.fs "/root/app/checkpoints" (Entry.symlink "/root/checkpoints")⟩)).fs p
         = sFresh.fs p) ∧
    ((envEvents ++ [Event.chdir "/root/app",
        Event.symlinkCreate "/root/checkpoints" "/root/app/checkpoints",
        Event.spawn serverCmd]).filter isSymlinkEv).length ≤ 1 ∧
    ((envEvents ++ [Event.chdir "/root/app",
        Event.symlinkCreate "/root/checkpoints" "/root/app/checkpoints",
        Event.spawn serverCmd]).filter isSpawnEv).length ≤ 1 ∧
    (isOk (BootOutcome.ok ⟨envAfter sFresh.env, "/root/app",
        fsSet sFresh.fs "/root/app/checkpoints" (Entry.symlink "/root/checkpoints")⟩) = true →
      (envEvents ++ [Event.chdir "/root/app",
        Event.symlinkCreate "/root/checkpoints" "/root/app/checkpoints",
        Event.spawn serverCmd]).filter isSpawnEv = [Event.spawn serverCmd]) :=
  side_effects_bounded sFresh _ _
    (web_create_branch sFresh (by decide) (by decide) (by decide))

/-- C9: with a dangling symlink at the expected path (entry present, target
removed), `os.path.exists` reports the path absent, the subsequent
`os.symlink` raises `FileExistsError`, and the routine terminates before
any spawn — re-invocation is not failure-free in this state. -/
theorem dangling_alias_blocks_restart (s : PState) (t : String)
    (hdir : resolveEntry s.fs FUEL "/root/app" = some Entry.dir)
    (hlink : s.fs "/root/app/checkpoints" = some (Entry.symlink t))
    (htgt : s.fs t = none) :
    pathExists s.fs "/root/app/checkpoints" = false ∧
    web s = (BootOutcome.err "FileExistsError" ⟨envAfter s.env, "/root/app", s.fs⟩,
             envEvents ++ [Event.chdir "/root/app"]) ∧
    (∀ c, Event.spawn c ∉ (web s).2) := by
  have hnex := pathExists_dangling s.fs _ t hlink htgt
  have hw := web_dangling_branch s hdir hnex _ hlink
  refine ⟨hnex, hw, fun c hc => ?_⟩
  rw [hw] at hc
  simp [envEvents] at hc

/-- Witness for C9 at the concrete dangling-alias instance. -/
theorem dangling_alias_blocks_restart_witness :
    pathExists sDangling.fs "/root/app/checkpoints" = false ∧
    web sDangling = (BootOutcome.err "FileExistsError"
             ⟨envAfter sDangling.env, "/root/app", sDangling.fs⟩,
             envEvents ++ [Event.chdir "/root/app"]) ∧
    (∀ c, Event.spawn c ∉ (web sDangling).2) :=
  dangling_alias_blocks_restart sDangling "/root/checkpoints"
    (by decide) (by decide) (by decide)

/-- One declarative step of the Modal image build chain. -/
inductive BuildStep where
  | fromRegistry (tag : String) (addPython : String) : BuildStep
  | entrypoint (args : List String) : BuildStep
  | aptInstall (pkgs : List String) : BuildStep
  | uvSync (uvProjectDir : String) (frozen : Bool) (gpu : String) : BuildStep
  | pipInstall (pkgs : List String) (extraOptions : Option String)
      (gpu : Option String) : BuildStep
  | envStep (vars : List (String × String)) : BuildStep
  | runCommands (cmds : List String) (gpu : String) : BuildStep
  | addLocalDir (localPath remotePath : String) (copyFiles : Bool)
      (ignore : List String) : BuildStep
deriving DecidableEq, Repr

/-- CUDA version pinned at `modal_app.py` line 12. -/
def cuda_version : String := "12.8.1"

/-- Image flavor pinned at line 13 (full toolkit for flash_attn builds). -/
def flavor : String := "devel"

/-- Base operating system pinned at line 14. -/
def operating_sys : String := "ubuntu22.04"

/-- The assembled CUDA image tag of line 15. -/
def cuda_tag : String := cuda_version ++ "-" ++ flavor ++ "-" ++ operating_sys

/-- The exclusion set of the final `add_local_dir` step (line 62). -/
def ignoreList : List String :=
  ["__pycache__", ".git", "*.pyc", "outputs", "wan_models", "checkpoints",
   ".venv", "uv.lock", "*.lock"]

/-- The image build chain of `modal_app.py` lines 18-64, step by step in
source order. -/
def imageSteps : List BuildStep :=
  [BuildStep.fromRegistry ("nvidia/cuda:" ++ cuda_tag) "3.11",
   BuildStep.entrypoint [],
   BuildStep.aptInstall ["ffmpeg", "git", "build-essential"],
   BuildStep.uvSync "." true "b200",
   BuildStep.pipInstall ["hf-transfer"] none none,
   BuildStep.pipInstall ["flash-attn"] (some "--no-build-isolation") (some "b200"),
   BuildStep.envStep [("HF_HUB_ENABLE_HF_TRANSFER", "1")],
   BuildStep.runCommands
     ["huggingface-cli download Wan-AI/Wan2.1-T2V-1.3B --local-dir-use-symlinks False --local-dir /root/wan_models/Wan2.1-T2V-1.3B"]
     "b200",
   BuildStep.runCommands
     ["huggingface-cli download Wan-AI/Wan2.1-T2V-14B --local-dir-use-symlinks False --local-dir /root/wan_models/Wan2.1-T2V-14B"]
     "b200",
   BuildStep.runCommands
     ["huggingface-cli download krea/krea-realtime-video krea-realtime-video-14b.safetensors --local-dir /root/checkpoints"]
     "b200",
   BuildStep.addLocalDir "." "/root/app" true ignoreList]

/-- The step categories named by the ordering policy. -/
inductive StepClass where
  | base : StepClass
  | sysPkgs : StepClass
  | lockedDeps : StepClass
  | nativeExt : StepClass
  | download : StepClass
  | snapshot : StepClass
deriving DecidableEq, Repr

/-- Whether a shell command is a remote artifact download. -/
def isDownloadCmd (c : String) : Bool :=
  List.isPrefixOf "huggingface-cli download ".data c.data

/-- Classify a build step under the ordering policy: the registry base image
is the OS+toolkit layer, `apt_install` the system packages, the frozen
`uv_sync` the locked ecosystem dependencies, the flash-attn `pip_install`
the hardware-aware native extension, `run_commands` consisting of
`huggingface-cli download` invocations the large artifact downloads, and
`add_local_dir` the local source snapshot.  Auxiliary steps (entrypoint
reset, the hf-transfer helper install, env assignment) are unclassified. -/
def classify : BuildStep → Option StepClass
  | BuildStep.fromRegistry _ _ => some StepClass.base
  | BuildStep.entrypoint _ => none
  | BuildStep.aptInstall _ => some StepClass.sysPkgs
  | BuildStep.uvSync _ _ _ => some StepClass.lockedDeps
  | BuildStep.pipInstall pkgs _ _ =>
    if pkgs.contains "flash-attn" then some StepClass.nativeExt else none
  | BuildStep.envStep _ => none
  | BuildStep.runCommands cmds _ =>
    if cmds.all isDownloadCmd then some StepClass.download else none
  | BuildStep.addLocalDir _ _ _ _ => some StepClass.snapshot

/-- C6: the build specification obeys the ordering policy — the classified
subsequence of steps is exactly base toolkit, system packages, locked
dependencies, native extension (after both toolkit and dependency
install), the three artifact downloads, and the source snapshot; the base
image is the first step and the snapshot the last. -/
theorem build_order_policy :
    imageSteps.filterMap classify =
      [StepClass.base, StepClass.sysPkgs, StepClass.lockedDeps,
       StepClass.nativeExt, StepClass.download, StepClass.download,
       StepClass.download, StepClass.snapshot] ∧
    imageSteps.head?.map classify = some (some StepClass.base) ∧
    imageSteps.getLast?.map classify = some (some StepClass.snapshot) := by
  refine ⟨by decide, by decide, by decide⟩

/-- Ignore-pattern semantics for the `add_local_dir` exclusion set: a
leading-star pattern matches by suffix (e.g. `*.lock`), any other pattern
matches the entry name exactly. -/
def matchesIgnore (pat name : String) : Bool :=
  if List.isPrefixOf "*".data pat.data then
    List.isSuffixOf (pat.data.drop 1) name.data
  else pat == name

/-- Whether a top-level source entry name is excluded by the ignore set of
the snapshot step. -/
def isIgnored (name : String) : Bool :=
  ignoreList.any (fun pat => matchesIgnore pat name)

/-- The filesystem produced by the three `huggingface-cli download` steps:
the two weight directories under `/root/wan_models` and the checkpoint
directory `/root/checkpoints`. -/
def downloadedFS : FS :=
  mkFS [("/root", Entry.dir), ("/root/wan_models", Entry.dir),
        ("/root/wan_models/Wan2.1-T2V-1.3B", Entry.dir),
        ("/root/wan_models/Wan2.1-T2V-14B", Entry.dir),
        ("/root/checkpoints", Entry.dir)]

/-- Copy a list of top-level source entries into `/root/app`, overwriting
path by path. -/
def applyCopies (fs : FS) : List (String × Entry) → FS
  | [] => fs
  | pr :: rest => applyCopies (fsSet fs ("/root/app/" ++ pr.1) pr.2) rest

/-- The filesystem after the whole image build, for a source tree with the
given top-level listing: the downloads, the `/root/app` directory, and the
non-ignored source entries copied beneath `/root/app`. -/
def buildFS (src : List (String × Entry)) : FS :=
  applyCopies (fsSet downloadedFS "/root/app" Entry.dir)
    (src.filter (fun pr => !(isIgnored pr.1)))

/-- Copying entries under `/root/app/` leaves every path not written by a
copy unchanged. -/
theorem applyCopies_frame (l : List (String × Entry)) (fs : FS) (q : String)
    (h : ∀ pr ∈ l, "/root/app/" ++ pr.1 ≠ q) : applyCopies fs l q = fs q := by
  induction l generalizing fs with
  | nil => rfl
  | cons hd tl ih =>
    show applyCopies (fsSet fs ("/root/app/" ++ hd.1) hd.2) tl q = fs q
    rw [ih (fsSet fs ("/root/app/" ++ hd.1) hd.2)
          (fun pr hpr => h pr (List.mem_cons_of_mem hd hpr))]
    exact fsSet_other fs _ hd.2 q (Ne.symm (h hd (List.mem_cons_self hd tl)))

/-- Two strings differ when they disagree at a character position inside
the first summand of an append. -/
theorem append_ne_of_get (a n t : String) (i : Nat) (hi : i < a.data.length)
    (hne : a.data[i]? ≠ t.data[i]?) : a ++ n ≠ t := by
  intro h
  apply hne
  have hdata : a.data ++ n.data = t.data := by
    rw [← String.data_append, h]
  rw [← hdata, List.getElem?_append_left hi]

/-- A string extending `a` is never shorter than `a`. -/
theorem append_ne_of_short (a n t : String) (hlt : t.data.length < a.data.length) :
    a ++ n ≠ t := by
  intro h
  have hdata : a.data ++ n.data = t.data := by
    rw [← String.data_append, h]
  have hlen := congrArg List.length hdata
  rw [List.length_append] at hlen
  omega

/-- String append is left-cancellative. -/
theorem append_left_cancel_str (a b c : String) (h : a ++ b = a ++ c) : b = c := by
  have hdata : a.data ++ b.data = a.data ++ c.data := by
    rw [← String.data_append, ← String.data_append, h]
  exact String.ext (List.append_cancel_left hdata)

/-- C10: the snapshot's exclusion set covers `checkpoints`, `wan_models`,
`outputs`, `__pycache__`, `.git`, `.venv` and the lock file, so for every
source tree the copied files land under `/root/app/` without touching the
downloaded artifacts at `/root/checkpoints` and `/root/wan_models`, the
path `/root/app/checkpoints` is absent on a fresh instance, and the
bootstrap therefore creates the alias, which resolves to the downloaded
checkpoint directory. -/
theorem snapshot_preserves_artifacts (src : List (String × Entry)) :
    isIgnored "checkpoints" = true ∧ isIgnored "wan_models" = true ∧
    isIgnored "outputs" = true ∧ isIgnored "__pycache__" = true ∧
    isIgnored ".git" = true ∧ isIgnored ".venv" = true ∧
    isIgnored "uv.lock" = true ∧
    buildFS src "/root/app/checkpoints" = none ∧
    buildFS src "/root/checkpoints" = some Entry.dir ∧
    buildFS src "/root/wan_models" = some Entry.dir ∧
    buildFS src "/root/wan_models/Wan2.1-T2V-1.3B" = some Entry.dir ∧
    buildFS src "/root/wan_models/Wan2.1-T2V-14B" = some Entry.dir ∧
    (web ⟨baseEnv, "/", buildFS src⟩).1 = BootOutcome.ok
      ⟨envAfter baseEnv, "/root/app",
       fsSet (buildFS src) "/root/app/checkpoints" (Entry.symlink "/root/checkpoints")⟩ ∧
    fsSet (buildFS src) "/root/app/checkpoints" (Entry.symlink "/root/checkpoints")
      "/root/app/checkpoints" = some (Entry.symlink "/root/checkpoints") ∧
    pathExists
      (fsSet (buildFS src) "/root/app/checkpoints" (Entry.symlink "/root/checkpoints"))
      "/root/app/checkpoints" = true := by
  have happ : buildFS src "/root/app" = some Entry.dir := by
    unfold buildFS
    rw [applyCopies_frame _ _ _
      (fun pr hpr => append_ne_of_short "/root/app/" pr.1 "/root/app" (by decide))]
    exact fsSet_same _ _ _
  have halias : buildFS src "/root/app/checkpoints" = none := by
    unfold buildFS
    rw [applyCopies_frame]
    · rw [fsSet_other _ _ _ _ (by decide)]
      decide
    · intro pr hpr heq
      have h1 : pr.1 = "checkpoints" :=
        append_left_cancel_str "/root/app/" pr.1 "checkpoints"
          (by rw [heq]; decide)
      have h3 : (!(isIgnored pr.1)) = true := by
        have hm := List.mem_filter.mp hpr
        simpa using hm.2
      rw [h1] at h3
      exact absurd h3 (by decide)
  have hck : buildFS src "/root/checkpoints" = some Entry.dir := by
    unfold buildFS
    rw [applyCopies_frame _ _ _ (fun pr hpr =>
          append_ne_of_get "/root/app/" pr.1 "/root/checkpoints" 6 (by decide) (by decide)),
        fsSet_other _ _ _ _ (by decide)]
    decide
  have hwan : buildFS src "/root/wan_models" = some Entry.dir := by
    unfold buildFS
    rw [applyCopies_frame _ _ _ (fun pr hpr =>
          append_ne_of_get "/root/app/" pr.1 "/root/wan_models" 6 (by decide) (by decide)),
        fsSet_other _ _ _ _ (by decide)]
    decide
  have hw1 : buildFS src "/root/wan_models/Wan2.1-T2V-1.3B" = some Entry.dir := by
    unfold buildFS
    rw [applyCopies_frame _ _ _ (fun pr hpr =>
          append_ne_of_get "/root/app/" pr.1 "/root/wan_models/Wan2.1-T2V-1.3B" 6
            (by decide) (by decide)),
        fsSet_other _ _ _ _ (by decide)]
    decide
  have hw2 : buildFS src "/root/wan_models/Wan2.1-T2V-14B" = some Entry.dir := by
    unfold buildFS
    rw [applyCopies_frame _ _ _ (fun pr hpr =>
          append_ne_of_get "/root/app/" pr.1 "/root/wan_models/Wan2.1-T2V-14B" 6
            (by decide) (by decide)),
        fsSet_other _ _ _ _ (by decide)]
    decide
  have hdir : resolveEntry (buildFS src) FUEL "/root/app" = some Entry.dir :=
    resolveEntry_dir _ _ happ
  have hnex : pathExists (buildFS src) "/root/app/checkpoints" = false :=
    pathExists_none _ _ halias
  have hweb := web_create_branch ⟨baseEnv, "/", buildFS src⟩ hdir hnex halias
  refine ⟨by decide, by decide, by decide, by decide, by decide, by decide, by decide,
    halias, hck, hwan, hw1, hw2, by rw [hweb], fsSet_same _ _ _, ?_⟩
  refine pathExists_link_dir _ _ "/root/checkpoints" (fsSet_same _ _ _) ?_
  rw [fsSet_other _ _ _ _ (by decide)]
  exact hck

/-- A sample source-tree listing, including entries the snapshot must skip. -/
def srcSample : List (String × Entry) :=
  [("modal_app.py", Entry.file), ("configs", Entry.dir),
   ("release_server.py", Entry.file), ("checkpoints", Entry.dir),
   ("wan_models", Entry.dir), ("outputs", Entry.dir), ("uv.lock", Entry.file)]

/-- Witness for C10 at a concrete source listing. -/
theorem snapshot_preserves_artifacts_witness :
    isIgnored "checkpoints" = true ∧ isIgnored "wan_models" = true ∧
    isIgnored "outputs" = true ∧ isIgnored "__pycache__" = true ∧
    isIgnored ".git" = true ∧ isIgnored ".venv" = true ∧
    isIgnored "uv.lock" = true ∧
    buildFS srcSample "/root/app/checkpoints" = none ∧
    buildFS srcSample "/root/checkpoints" = some Entry.dir ∧
    buildFS srcSample "/root/wan_models" = some Entry.dir ∧
    buildFS srcSample "/root/wan_models/Wan2.1-T2V-1.3B" = some Entry.dir ∧
    buildFS srcSample "/root/wan_models/Wan2.1-T2V-14B" = some Entry.dir ∧
    (web ⟨baseEnv, "/", buildFS srcSample⟩).1 = BootOutcome.ok
      ⟨envAfter baseEnv, "/root/app",
       fsSet (buildFS srcSample) "/root/app/checkpoints" (Entry.symlink "/root/checkpoints")⟩ ∧
    fsSet (buildFS srcSample) "/root/app/checkpoints" (Entry.symlink "/root/checkpoints")
      "/root/app/checkpoints" = some (Entry.symlink "/root/checkpoints") ∧
    pathExists
      (fsSet (buildFS srcSample) "/root/app/checkpoints" (Entry.symlink "/root/checkpoints"))
      "/root/app/checkpoints" = true :=
  snapshot_preserves_artifacts srcSample

end RealtimeVideo
